import Mathlib

/-
  Verification development for the mega-miner-html5 repository.

  Shallow embedding of the player movement/mining state machine
  (src/Player/Player.js), the map generation coal layer (src/Map/Map.js),
  the building interaction handler (src/Handler/BuildingHandler.js) and the
  save handler (src/Handler/SaveHandler.js).  JS numbers are modelled as
  exact rationals; the per-frame tick is a pure transition function on an
  explicit game state, returning the list of dispatched custom events.
-/

namespace MegaMiner

/-- Direction enum, Player.Direction = { UP: 0, DOWN: 1, LEFT: 2, RIGHT: 3 }. -/
inductive Dir
  | up
  | down
  | left
  | right
deriving DecidableEq, Repr

/-- Grid coordinate (Tile from src/Grid/Tile.js): an immutable (gX, gY) pair.
Modelled from the spec: Tile.js is not under src; per the spec a Tile is an
immutable integer pair used as a mapping key, with two tiles equal iff their
coordinates match, so the string keying of fg_tiles is modelled as direct
keying by the pair itself. -/
structure Tile where
  gx : Int
  gy : Int
deriving DecidableEq, Repr

/-- The `properties` record of a MapTile that the claims depend on:
name, thickness (mining-speed percentage), value (sale price), interactable. -/
structure MapTileRec where
  name : String
  thickness : ℚ
  value : ℚ
  interactable : Bool
deriving DecidableEq, Repr

/-- An entry of the player's cargo hold.
Modelled from the spec: PlayerHold.js is not under src; per the spec the
hold is a list of tile snapshots carrying name and value. -/
structure HoldItem where
  name : String
  value : ℚ
deriving DecidableEq, Repr

/-- Snapshot taken when a mined MapTile is added to the cargo hold.
Modelled from the spec: PlayerHold.addMapTile is not under src; per the spec
it appends one snapshot (name, value) of the mined tile to the hold list. -/
def snapshotOf (m : MapTileRec) : HoldItem :=
  ⟨m.name, m.value⟩

/-- Custom events dispatched by Player.tick on arrival. -/
inductive Ev
  | tiledestroy (t : Tile)
  | tilemove (t : Tile)
deriving DecidableEq, Repr

/-- A teleporter waypoint: name plus pixel position. -/
structure Waypoint where
  name : String
  x : ℚ
  y : ℚ
deriving DecidableEq, Repr

/-- Modelled from the spec: Grid.js is not under src.  DisplayHandler
constructs `new Grid(this.game, 50, 40, 40)` with tileSize 50 (50 pixels per
tile per Player.js comments) and a 40 x 40 grid during development. -/
def tileSize : ℚ := 50

/-- Grid width in grid units (40, from `new Grid(this.game, 50, 40, 40)`). -/
def widthGU : ℕ := 40

/-- Grid height in grid units. -/
def heightGU : ℕ := 40

/-- GameMap.horizonLineGU = 8. -/
def horizonLineGU : ℕ := 8

/-- GameMap.horizonLine = horizonLineGU * tileSize = 400 pixels. -/
def horizonLine : ℚ := (horizonLineGU : ℚ) * tileSize

/-- Player.defaultSpeed = 0.222 pixels per millisecond. -/
def defaultSpeed : ℚ := 0.222

/-- Modelled from the spec: grid borders (Grid.js missing); left border of the
world in pixels. -/
def bordersLeft : ℚ := 0

/-- Modelled from the spec: right border of the world in pixels. -/
def bordersRight : ℚ := (widthGU : ℚ) * tileSize

/-- Modelled from the spec: bottom border of the world in pixels. -/
def bordersBottom : ℚ := (heightGU : ℚ) * tileSize

/-- JS Math.round (round half toward positive infinity). -/
def jsRound (q : ℚ) : ℤ := ⌊q + 1 / 2⌋

/-- Modelled from the spec: Grid.getTilePositionFromPixelPosition; the spec
defines pixelToGrid as flooring (x, y) / tileSize. -/
def pixelToGrid (x y : ℚ) : Tile :=
  ⟨⌊x / tileSize⌋, ⌊y / tileSize⌋⟩

/-- The whole mutable state the embedded code touches: the Player fields, the
map's fg_tiles store, and the BuildingHandler waypoint list. -/
structure GState where
  x : ℚ
  y : ℚ
  targetX : ℚ
  targetY : ℚ
  tile : Tile
  facing : Dir
  speed : ℚ
  speedMultiplier : ℚ
  moving : Bool
  wasMoving : Bool
  isStopping : Bool
  canMove : Bool
  tickEnabled : Bool
  charge : ℕ
  chargeReq : ℕ
  fuel : ℚ
  maxFuel : ℚ
  tank : ℚ
  money : ℚ
  fuelDebounce : Bool
  minetile : Option MapTileRec
  hold : List HoldItem
  capacity : ℚ
  fgTiles : Tile → Option MapTileRec
  waypoints : List Waypoint
  seed : ℚ

/-- Player.checkDirection: fixed priority UP, DOWN, LEFT, RIGHT over the
pressed-keys list, with the alternate wasd bindings. -/
def checkDirection (keys : List String) : Option Dir :=
  if keys.contains "ArrowUp" || keys.contains "w" then some .up
  else if keys.contains "ArrowDown" || keys.contains "s" then some .down
  else if keys.contains "ArrowLeft" || keys.contains "a" then some .left
  else if keys.contains "ArrowRight" || keys.contains "d" then some .right
  else none

/-- The candidate destination cell one grid unit away in a direction
(Player.tick lines 233-243). -/
def neighborTile (t : Tile) : Dir → Tile
  | .up => ⟨t.gx, t.gy - 1⟩
  | .down => ⟨t.gx, t.gy + 1⟩
  | .left => ⟨t.gx - 1, t.gy⟩
  | .right => ⟨t.gx + 1, t.gy⟩

/-- Player.kpCharge: run the commit logic when the destination is empty or the
charge counter exceeds chargeReq; afterwards increment charge while it is at
most chargeReq. -/
def kpCharge (s : GState) (maptile : Option MapTileRec) (logic : GState → GState) :
    GState :=
  let s' := if maptile.isNone ∨ s.chargeReq < s.charge then logic s else s
  if s'.charge ≤ s'.chargeReq then { s' with charge := s'.charge + 1 } else s'

/-- The border-clamped target position for a committed move
(Player.tick lines 256-283); computed from the current targetPos. -/
def clampTarget (d : Dir) (s : GState) : ℚ × ℚ :=
  match d with
  | .up =>
      let ty := s.targetY - tileSize
      (s.targetX, if ty < horizonLine - tileSize then horizonLine - tileSize else ty)
  | .down =>
      let ty := s.targetY + tileSize
      let lim := bordersBottom - tileSize
      (s.targetX, if lim < ty then lim else ty)
  | .left =>
      let tx := s.targetX - tileSize
      (if tx < bordersLeft then bordersLeft else tx, s.targetY)
  | .right =>
      let tx := s.targetX + tileSize
      let lim := bordersRight - tileSize
      (if lim < tx then lim else tx, s.targetY)

/-- The commit closure passed to kpCharge (Player.tick lines 253-302): set the
clamped target, bail out if it equals the current position, otherwise start
moving and derive the movement speed from the destination tile's thickness. -/
def commitMove (d : Dir) (maptile : Option MapTileRec) (s : GState) : GState :=
  let tp := clampTarget d s
  let s := { s with targetX := tp.1, targetY := tp.2 }
  if s.targetX = s.x ∧ s.targetY = s.y then s
  else
    let s := { s with moving := true, isStopping := false }
    match maptile with
    | some mt =>
        { s with speed := mt.thickness / 100 * (defaultSpeed * s.speedMultiplier),
                 minetile := some mt }
    | none =>
        if s.speed ≠ defaultSpeed then
          { s with speed := defaultSpeed, minetile := none }
        else s

/-- The not-currently-moving half of Player.tick (lines 229-316): resolve a
direction, update facing, charge up and maybe commit a move; with no direction
pressed, reset the charge and clear the stopping flag. -/
def chargePhase (s : GState) (keys : List String) : GState :=
  if s.moving = false ∧ s.canMove = true then
    match checkDirection keys with
    | some d =>
        let maptile := s.fgTiles (neighborTile s.tile d)
        let s := { s with facing := d }
        kpCharge s maptile (commitMove d maptile)
    | none =>
        let s := if 0 < s.charge then { s with charge := 0 } else s
        if s.isStopping then { s with isStopping := false } else s
  else s

/-- The fuel drain while moving (Player.tick lines 327-352): below the horizon
tolerance band fuel drops by delta/5100 while a minetile is set, else by
delta/7000. -/
def fuelDrain (s : GState) (delta : ℚ) : GState :=
  if horizonLine - tileSize + 5 < s.y then
    match s.minetile with
    | some _ => { s with fuel := s.fuel + -(1 / 5100) * delta }
    | none => { s with fuel := s.fuel + -(1 / 7000) * delta }
  else s

/-- Position interpolation along the facing axis, clamped at the target
(Player.tick lines 355-382). -/
def advance (s : GState) (delta : ℚ) : GState :=
  if s.targetX ≠ s.x ∨ s.targetY ≠ s.y then
    let diff := s.speed * delta
    match s.facing with
    | .up =>
        let my := s.y - diff
        { s with y := if my < s.targetY then s.targetY else my }
    | .down =>
        let my := s.y + diff
        { s with y := if s.targetY < my then s.targetY else my }
    | .left =>
        let mx := s.x - diff
        { s with x := if mx < s.targetX then s.targetX else mx }
    | .right =>
        let mx := s.x + diff
        { s with x := if s.targetX < mx then s.targetX else mx }
  else s

/-- The movement-completion test (Player.tick lines 390-395). -/
def arrivedCond (s : GState) : Bool :=
  match s.facing with
  | .up => decide (s.y ≤ s.targetY)
  | .down => decide (s.targetY ≤ s.y)
  | .left => decide (s.x ≤ s.targetX)
  | .right => decide (s.targetX ≤ s.x)

/-- Deleting one key from fg_tiles (delete this.map.fg_tiles[...]). -/
def removeTileAt (m : Tile → Option MapTileRec) (t : Tile) :
    Tile → Option MapTileRec :=
  fun u => if u = t then none else m u

/-- The arrival block of Player.tick (lines 390-427): snap to the target,
stop, refresh the current tile, then either just dispatch tilemove for a
building, or mine a non-interactable tile (add to hold, delete from fg_tiles,
dispatch tiledestroy then tilemove), or dispatch tilemove for an empty cell. -/
def arrivalStep (s : GState) : GState × List Ev :=
  if arrivedCond s then
    let s' := { s with x := s.targetX, y := s.targetY, moving := false,
                       isStopping := true,
                       tile := pixelToGrid s.targetX s.targetY }
    match s'.fgTiles s'.tile with
    | some m =>
        if m.interactable then (s', [Ev.tilemove s'.tile])
        else
          ({ s' with hold := s'.hold ++ [snapshotOf m],
                     fgTiles := removeTileAt s'.fgTiles s'.tile,
                     minetile := none },
           [Ev.tiledestroy s'.tile, Ev.tilemove s'.tile])
    | none => (s', [Ev.tilemove s'.tile])
  else (s, [])

/-- Player.outOfFuel up to its first asynchronous boundary: the debounce
guard, then canMove and moving are cleared and the debounce flag is set. -/
def outOfFuelStart (s : GState) : GState :=
  if s.fuelDebounce then s
  else { s with fuelDebounce := true, canMove := false, moving := false }

/-- Math.round((widthGU * tileSize) / 2), the respawn x position. -/
def resetX : ℚ := ((jsRound ((widthGU : ℚ) * tileSize / 2) : ℤ) : ℚ)

/-- Player.resetPos: move to the spawn point one tile above the horizon,
facing right, with targetPos synchronized. -/
def resetPos (s : GState) : GState :=
  { s with x := resetX, y := horizonLine - tileSize,
           tile := pixelToGrid resetX (horizonLine - tileSize),
           targetX := resetX, targetY := horizonLine - tileSize,
           facing := .right, wasMoving := false, isStopping := false }

/-- The deferred part of Player.outOfFuel (fade callback plus the timed fade
back): refill fuel to maxFuel, deduct depth + maxFuel from money, reset the
position, then clear the debounce flag and re-enable movement. -/
def outOfFuelRecover (s : GState) : GState :=
  let depth : ℚ := ((jsRound ((s.y / tileSize - 7) * 5) : ℤ) : ℚ)
  let s := { s with fuel := s.maxFuel }
  let s := { s with money := s.money - (depth + s.maxFuel) }
  let s := resetPos s
  { s with fuelDebounce := false, canMove := true }

/-- The wasMoving one-tick delay update at the end of Player.tick. -/
def finishTick (s : GState) : GState :=
  if s.wasMoving ≠ s.moving then { s with wasMoving := s.moving } else s

/-- The moving half of Player.tick (lines 320-432): out-of-fuel re-check, fuel
drain, interpolation, arrival handling, then the wasMoving update. -/
def movingPhase (s : GState) (delta : ℚ) : GState × List Ev :=
  if s.fuel ≤ 0 then (outOfFuelStart s, [])
  else
    let s1 := fuelDrain s delta
    let s2 := advance s1 delta
    let p := arrivalStep s2
    (finishTick p.1, p.2)

/-- One invocation of Player.tick, as a pure transition on the game state,
returning the dispatched events. -/
def tick (s : GState) (delta : ℚ) (keys : List String) : GState × List Ev :=
  if s.tickEnabled = false then (s, [])
  else if s.fuel ≤ 0 then (outOfFuelStart s, [])
  else
    let s1 := chargePhase s keys
    if s1.moving then movingPhase s1 delta
    else (finishTick s1, [])

/-- Iterated ticks with a fixed delta and key set. -/
def iterTick (delta : ℚ) (keys : List String) : ℕ → GState → GState
  | 0, s => s
  | n + 1, s => (tick (iterTick delta keys n s) delta keys).1

/-- The Player constructor state (Player.js constructor followed by
resetPos), parametrized by the generated map. -/
def initState (fg : Tile → Option MapTileRec) : GState :=
  resetPos
    { x := 0, y := 0, targetX := 0, targetY := 0, tile := ⟨0, 0⟩,
      facing := .right, speed := defaultSpeed, speedMultiplier := 1,
      moving := false, wasMoving := false, isStopping := false,
      canMove := true, tickEnabled := true, charge := 0, chargeReq := 20,
      fuel := 10 * (0 / 2 + 1), maxFuel := 10, tank := 0, money := 300,
      fuelDebounce := false, minetile := none, hold := [], capacity := 10,
      fgTiles := fg, waypoints := [], seed := 0 }

/-- BuildingHandler.handlePurchase, case "fuel_upgrade": maxFuel += 5 for the
item price, behind the affordability guard. -/
def purchaseFuelUpgrade (price : ℚ) (s : GState) : GState :=
  if s.money < price then s
  else { s with maxFuel := s.maxFuel + 5, money := s.money - price }

/-- BuildingHandler.handlePurchase, case "cargo_upgrade". -/
def purchaseCargoUpgrade (price : ℚ) (s : GState) : GState :=
  if s.money < price then s
  else { s with capacity := s.capacity + 5, money := s.money - price }

/-- BuildingHandler.handlePurchase, case "speed_upgrade". -/
def purchaseSpeedUpgrade (price : ℚ) (s : GState) : GState :=
  if s.money < price then s
  else { s with speedMultiplier := s.speedMultiplier + 0.2, money := s.money - price }

/-- The total sale value of the cargo hold
(this.player.hold.mapTiles.reduce((sum, item) => sum + item.value, 0)). -/
def cargoValue (s : GState) : ℚ :=
  (s.hold.map HoldItem.value).sum

/-- BuildingHandler.handlePurchase, case "sell_all": the SELL ALL item's price
equals the total cargo value, so the generic `item.price > money` guard at the
top of handlePurchase also gates selling; on success money is credited with
the total value and the hold is emptied. -/
def sellAllAction (s : GState) : GState :=
  if s.money < cargoValue s then s
  else { s with money := s.money + cargoValue s, hold := [] }

/-- BuildingHandler.handlePurchase, case "refuel": the item price is
Math.ceil((maxFuel - fuel) * 2) from openFuelStation. -/
def refuelAction (s : GState) : GState :=
  let price : ℚ := ((⌈(s.maxFuel - s.fuel) * 2⌉ : ℤ) : ℚ)
  if s.money < price then s
  else { s with fuel := s.maxFuel, money := s.money - price }

/-- BuildingHandler.handlePurchase, case "add_waypoint". -/
def addWaypointAction (name : String) (s : GState) : GState :=
  if s.money < 100 then s
  else { s with waypoints := s.waypoints ++ [⟨name, s.x, s.y⟩],
                money := s.money - 100 }

/-- BuildingHandler.handlePurchase, teleport case: move the player and its
target to the waypoint for the fixed price of 50. -/
def teleportAction (w : Waypoint) (s : GState) : GState :=
  if s.money < 50 then s
  else { s with x := w.x, y := w.y, targetX := w.x, targetY := w.y,
                money := s.money - 50 }

/-- The save record written by SaveHandler.saveGame. -/
structure SaveData where
  money : ℚ
  fuel : ℚ
  maxFuel : ℚ
  tank : ℚ
  speedMultiplier : ℚ
  posX : ℚ
  posY : ℚ
  cargo : List HoldItem
  cargoCapacity : ℚ
  waypoints : List Waypoint
  seed : ℚ
deriving DecidableEq

/-- SaveHandler.saveGame: snapshot the player, hold and waypoint fields. -/
def saveGame (s : GState) : SaveData :=
  { money := s.money, fuel := s.fuel, maxFuel := s.maxFuel, tank := s.tank,
    speedMultiplier := s.speedMultiplier, posX := s.x, posY := s.y,
    cargo := s.hold, cargoCapacity := s.capacity, waypoints := s.waypoints,
    seed := s.seed }

/-- JS `a || b` on numbers: the default is used exactly when the stored value
is falsy, i.e. 0. -/
def jsOr (v d : ℚ) : ℚ :=
  if v = 0 then d else v

/-- SaveHandler.applySaveData: field-by-field restore in source order; the
numeric fields use JS || fallbacks (money || 300, fuel || current maxFuel,
maxFuel || 10, tank || 0, speedMultiplier || 1), position and cargo and
waypoints are applied unconditionally (objects and arrays are truthy), and
cargoCapacity is applied only when nonzero. -/
def applySaveData (sd : SaveData) (s : GState) : GState :=
  let s := { s with money := jsOr sd.money 300 }
  let s := { s with fuel := jsOr sd.fuel s.maxFuel }
  let s := { s with maxFuel := jsOr sd.maxFuel 10 }
  let s := { s with tank := jsOr sd.tank 0 }
  let s := { s with speedMultiplier := jsOr sd.speedMultiplier 1 }
  let s := { s with x := sd.posX, y := sd.posY,
                    targetX := sd.posX, targetY := sd.posY,
                    tile := pixelToGrid sd.posX sd.posY }
  let s := { s with hold := sd.cargo }
  let s := if sd.cargoCapacity ≠ 0 then { s with capacity := sd.cargoCapacity } else s
  { s with waypoints := sd.waypoints }

/-- Saving and immediately applying the loaded record to the same state. -/
def roundTrip (s : GState) : GState :=
  applySaveData (saveGame s) s

/-- One step of the game: a tick with arbitrary delta and keys, the deferred
out-of-fuel recovery, a building purchase action, or a save-data application. -/
inductive Step : GState → GState → Prop
  | tick (s : GState) (delta : ℚ) (keys : List String) :
      Step s (tick s delta keys).1
  | recover (s : GState) : Step s (outOfFuelRecover s)
  | fuelUpgrade (price : ℚ) (s : GState) : Step s (purchaseFuelUpgrade price s)
  | cargoUpgrade (price : ℚ) (s : GState) : Step s (purchaseCargoUpgrade price s)
  | speedUpgrade (price : ℚ) (s : GState) : Step s (purchaseSpeedUpgrade price s)
  | sellAll (s : GState) : Step s (sellAllAction s)
  | refuel (s : GState) : Step s (refuelAction s)
  | addWaypoint (name : String) (s : GState) : Step s (addWaypointAction name s)
  | teleport (w : Waypoint) (s : GState) : Step s (teleportAction w s)
  | applySave (sd : SaveData) (s : GState) : Step s (applySaveData sd s)

/-- The states reachable from the freshly constructed player over some
generated map. -/
def Reachable (fg : Tile → Option MapTileRec) (s : GState) : Prop :=
  Relation.ReflTransGen Step (initState fg) s

/- Map generation: the coal layer (GameMap.generate lines 173-180 and
GameMap.shouldGenType lines 197-211). -/

/-- Modelled from the spec: Coal.js is not under src; only the identity of
the record matters here (a higher-value ore tile named Coal). -/
def coalRec : MapTileRec :=
  { name := "Coal", thickness := 0, value := 0, interactable := false }

/-- Modelled from the spec: Dirt.js is not under src; dirt fills every cell
below the horizon before ore generation. -/
def dirtRec : MapTileRec :=
  { name := "Dirt", thickness := 0, value := 0, interactable := false }

/-- GameMap.shouldGenType for "coal" on layer 1: Math.random() * 100 <= 7.5,
with the random draw passed in explicitly. -/
def shouldGenCoal (r : ℚ) : Bool :=
  decide (r * 100 ≤ 7.5)

/-- GameMap.genType for Coal: overwrite whatever occupies the cell. -/
def genTypeCoal (m : Tile → Option MapTileRec) (t : Tile) :
    Tile → Option MapTileRec :=
  fun u => if u = t then some coalRec else m u

/-- The cells visited by the coal loop, in loop order: gX from 0 while
gX < widthGU, and inside it gY from horizonLineGU + 1 while
gY < horizonLineGU + 21 (hence 21 - 1 = 20 values of gY per column). -/
def coalBand : List Tile :=
  (List.range widthGU).flatMap fun gX =>
    (List.range' (horizonLineGU + 1) 20).map fun gY : ℕ =>
      { gx := (gX : ℤ), gy := (gY : ℤ) }

/-- The coal layer of GameMap.generate: fold the per-cell Bernoulli trial and
overwrite over the band, starting from the map produced by the dirt loop; the
oracle gives the Math.random() draw consumed at each cell. -/
def generateCoalLayer (oracle : Tile → ℚ) (m : Tile → Option MapTileRec) :
    Tile → Option MapTileRec :=
  coalBand.foldl
    (fun m t => if shouldGenCoal (oracle t) = true then genTypeCoal m t else m) m

/- BuildingHandler UI state (src/Handler/BuildingHandler.js). -/

/-- The building types dispatched on by handleBuildingInteraction. -/
inductive BType
  | shop
  | saveStation
  | sellingPost
  | fuelStation
  | teleporter
deriving DecidableEq, Repr

/-- The BuildingHandler state: the currentUI flag, whether a DOM overlay
(a created UI) currently exists, and the player it reads. -/
structure BH where
  currentUI : Option String
  overlay : Bool
  player : GState

/-- BuildingHandler.openShop: guarded by currentUI, then sets the flag and
creates the UI. -/
def openShop (b : BH) : BH :=
  if b.currentUI.isSome then b
  else { b with currentUI := some "shop", overlay := true }

/-- BuildingHandler.openSellingPost: guarded by currentUI; with an empty hold
it only shows a message; otherwise sets the flag and creates the UI. -/
def openSellingPost (b : BH) : BH :=
  if b.currentUI.isSome then b
  else if b.player.hold.length = 0 then b
  else { b with currentUI := some "selling", overlay := true }

/-- BuildingHandler.openFuelStation: guarded by currentUI; the flag is set
before the full-tank check, and when maxFuel - fuel <= 0 the function returns
after only showing a message, creating no UI. -/
def openFuelStation (b : BH) : BH :=
  if b.currentUI.isSome then b
  else
    let b := { b with currentUI := some "fuel" }
    if b.player.maxFuel - b.player.fuel ≤ 0 then b
    else { b with overlay := true }

/-- BuildingHandler.openTeleporter. -/
def openTeleporter (b : BH) : BH :=
  if b.currentUI.isSome then b
  else { b with currentUI := some "teleporter", overlay := true }

/-- BuildingHandler.saveGame writes localStorage and shows a message; it
neither checks nor changes currentUI. -/
def bhSaveGame (b : BH) : BH := b

/-- BuildingHandler.handleBuildingInteraction: dispatch on the building type. -/
def handleBuildingInteraction (bt : BType) (b : BH) : BH :=
  match bt with
  | .shop => openShop b
  | .saveStation => bhSaveGame b
  | .sellingPost => openSellingPost b
  | .fuelStation => openFuelStation b
  | .teleporter => openTeleporter b

/-- BuildingHandler.closeUI: removes the overlay if present and clears the
flag; in the running game it is only invoked from elements of a created UI. -/
def closeUI (b : BH) : BH :=
  { b with overlay := false, currentUI := none }

/- Concrete states used to instantiate the theorems below. -/

/-- A plain mineable tile with thickness 50, as in the C4 scenario. -/
def rockRec : MapTileRec :=
  { name := "Rock", thickness := 50, value := 10, interactable := false }

/-- The Shop building tile record (src/Map/Tiles/Shop.js): thickness 0,
value 0, interactable. -/
def shopRec : MapTileRec :=
  { name := "Shop", thickness := 0, value := 0, interactable := true }

/-- A map holding one mineable tile of thickness 50 at grid (11, 8). -/
def c4Map : Tile → Option MapTileRec :=
  fun t => if t = { gx := 11, gy := 8 } then some rockRec else none

/-- The scenario player: idle at grid (10, 8), default statistics,
chargeReq = 20, facing right. -/
def c4Start : GState :=
  { x := 500, y := 400, targetX := 500, targetY := 400,
    tile := { gx := 10, gy := 8 },
    facing := .right, speed := defaultSpeed, speedMultiplier := 1,
    moving := false, wasMoving := false, isStopping := false,
    canMove := true, tickEnabled := true, charge := 0, chargeReq := 20,
    fuel := 10, maxFuel := 10, tank := 0, money := 300,
    fuelDebounce := false, minetile := none, hold := [], capacity := 10,
    fgTiles := c4Map, waypoints := [], seed := 0 }

/-- A map with a Shop building at grid (11, 8). -/
def c5Map : Tile → Option MapTileRec :=
  fun t => if t = { gx := 11, gy := 8 } then some shopRec else none

/-- The player idle at grid (10, 8) with the Shop one cell to the right. -/
def c5Start : GState :=
  { c4Start with fgTiles := c5Map }

/-- The all-dirt map below the horizon, as left by the dirt loop. -/
def allDirt : Tile → Option MapTileRec := fun _ => some dirtRec

/-- A mid-recovery state: the player cannot move (canMove = false, as set by
outOfFuel until the recovery finishes), holds leftover charge 5, and is not
moving, with fuel refilled. -/
def c3Stuck : GState :=
  { c4Start with charge := 5, canMove := false }

/-- A player that is moving over empty ground with a stale minetile. -/
def c2Moving : GState :=
  { c4Start with moving := true, minetile := some rockRec }

/-- A player that has just reached its target pixel position while moving,
over an empty destination cell. -/
def c1Arrive : GState :=
  { c4Start with moving := true }

/-- A player that has run out of fuel, recovery not yet started. -/
def c6Empty : GState :=
  { c4Start with fuel := 0 }

/-- A broke player carrying one piece of coal worth 5. -/
def c7Broke : GState :=
  { c4Start with money := 0, hold := [{ name := "Coal", value := 5 }] }

/-- A solvent player carrying one piece of coal worth 5. -/
def c7Rich : GState :=
  { c4Start with hold := [{ name := "Coal", value := 5 }] }

/-- A player with exactly zero money at save time. -/
def c8Broke : GState :=
  { c4Start with money := 0 }

/-- A building handler with no open UI whose player has a full tank. -/
def bh10 : BH :=
  { currentUI := none, overlay := false, player := c4Start }

/- Helper lemmas about the tick phases. -/

lemma kpCharge_noCommit (s : GState) (mt : MapTileRec) (logic : GState → GState)
    (hch : s.charge ≤ s.chargeReq) :
    kpCharge s (some mt) logic = { s with charge := s.charge + 1 } := by
  unfold kpCharge
  simp only [Option.isNone_some, Bool.false_eq_true, false_or]
  rw [if_neg (show ¬ s.chargeReq < s.charge by omega), if_pos hch]

lemma chargePhase_noCommit (s : GState) (keys : List String) (d : Dir)
    (mt : MapTileRec)
    (hM : s.moving = false) (hC : s.canMove = true)
    (hk : checkDirection keys = some d)
    (hmt : s.fgTiles (neighborTile s.tile d) = some mt)
    (hch : s.charge ≤ s.chargeReq) :
    chargePhase s keys = { s with facing := d, charge := s.charge + 1 } := by
  unfold chargePhase
  rw [if_pos ⟨hM, hC⟩, hk]
  simp only [hmt]
  rw [kpCharge_noCommit { s with facing := d } mt _ hch]

lemma charging_tick (s : GState) (delta : ℚ) (keys : List String) (d : Dir)
    (mt : MapTileRec)
    (hT : s.tickEnabled = true) (hF : ¬ s.fuel ≤ 0) (hM : s.moving = false)
    (hC : s.canMove = true) (hW : s.wasMoving = false)
    (hk : checkDirection keys = some d)
    (hmt : s.fgTiles (neighborTile s.tile d) = some mt)
    (hch : s.charge ≤ s.chargeReq) :
    (tick s delta keys).1 = { s with facing := d, charge := s.charge + 1 } := by
  unfold tick
  rw [if_neg (by simp [hT]), if_neg hF,
      chargePhase_noCommit s keys d mt hM hC hk hmt hch]
  rw [if_neg (by simp [hM])]
  unfold finishTick
  rw [if_neg (by simp [hW, hM])]

lemma c4_charging : ∀ n, n ≤ 21 →
    iterTick 20 ["ArrowRight"] n c4Start = { c4Start with charge := n } := by
  intro n
  induction n with
  | zero => intro _; rfl
  | succ k ih =>
      intro hk
      rw [iterTick, ih (by omega),
          charging_tick { c4Start with charge := k } 20 ["ArrowRight"] Dir.right
            rockRec rfl (by norm_num [c4Start]) rfl rfl rfl rfl rfl
            (by show k ≤ 20; omega)]
      rfl

lemma c4_commit :
    (tick { c4Start with charge := 21 } 20 ["ArrowRight"]).1 =
      { c4Start with
        charge := 21
        targetX := 550
        moving := true
        wasMoving := true
        speed := 111 / 1000
        minetile := some rockRec
        fuel := 10 - 20 / 5100
        x := 500 + 111 / 1000 * 20 } := by
  have hk : checkDirection ["ArrowRight"] = some Dir.right := by rfl
  norm_num [tick, chargePhase, hk, kpCharge, commitMove, clampTarget,
    movingPhase, fuelDrain, advance, arrivedCond, arrivalStep, pixelToGrid,
    finishTick, c4Start, c4Map, rockRec, neighborTile, tileSize, horizonLine,
    horizonLineGU, widthGU, heightGU, bordersRight, bordersBottom, bordersLeft,
    defaultSpeed, Tile.mk.injEq, decide_eq_true_eq]

lemma chargePhase_of_moving (s : GState) (keys : List String)
    (hM : s.moving = true) : chargePhase s keys = s := by
  unfold chargePhase
  rw [if_neg (by simp [hM])]

lemma tick_of_moving (s : GState) (delta : ℚ) (keys : List String)
    (hT : s.tickEnabled = true) (hM : s.moving = true) (hF : ¬ s.fuel ≤ 0) :
    tick s delta keys = movingPhase s delta := by
  unfold tick
  rw [if_neg (by simp [hT]), if_neg hF, chargePhase_of_moving s keys hM, if_pos hM]

@[simp] lemma fuelDrain_targetX (s : GState) (delta : ℚ) :
    (fuelDrain s delta).targetX = s.targetX := by
  unfold fuelDrain
  split
  · split <;> rfl
  · rfl

@[simp] lemma fuelDrain_targetY (s : GState) (delta : ℚ) :
    (fuelDrain s delta).targetY = s.targetY := by
  unfold fuelDrain
  split
  · split <;> rfl
  · rfl

@[simp] lemma fuelDrain_fgTiles (s : GState) (delta : ℚ) :
    (fuelDrain s delta).fgTiles = s.fgTiles := by
  unfold fuelDrain
  split
  · split <;> rfl
  · rfl

@[simp] lemma fuelDrain_hold (s : GState) (delta : ℚ) :
    (fuelDrain s delta).hold = s.hold := by
  unfold fuelDrain
  split
  · split <;> rfl
  · rfl

@[simp] lemma advance_targetX (s : GState) (delta : ℚ) :
    (advance s delta).targetX = s.targetX := by
  unfold advance
  split
  · cases s.facing <;> rfl
  · rfl

@[simp] lemma advance_targetY (s : GState) (delta : ℚ) :
    (advance s delta).targetY = s.targetY := by
  unfold advance
  split
  · cases s.facing <;> rfl
  · rfl

@[simp] lemma advance_fgTiles (s : GState) (delta : ℚ) :
    (advance s delta).fgTiles = s.fgTiles := by
  unfold advance
  split
  · cases s.facing <;> rfl
  · rfl

@[simp] lemma advance_hold (s : GState) (delta : ℚ) :
    (advance s delta).hold = s.hold := by
  unfold advance
  split
  · cases s.facing <;> rfl
  · rfl

@[simp] lemma advance_fuel (s : GState) (delta : ℚ) :
    (advance s delta).fuel = s.fuel := by
  unfold advance
  split
  · cases s.facing <;> rfl
  · rfl

@[simp] lemma arrivalStep_fst_fuel (s : GState) :
    (arrivalStep s).1.fuel = s.fuel := by
  unfold arrivalStep
  split
  · dsimp only
    split
    · split <;> rfl
    · rfl
  · rfl

@[simp] lemma finishTick_fuel (s : GState) : (finishTick s).fuel = s.fuel := by
  unfold finishTick
  split <;> rfl

@[simp] lemma finishTick_fgTiles (s : GState) :
    (finishTick s).fgTiles = s.fgTiles := by
  unfold finishTick
  split <;> rfl

@[simp] lemma finishTick_hold (s : GState) : (finishTick s).hold = s.hold := by
  unfold finishTick
  split <;> rfl

@[simp] lemma removeTileAt_apply (m : Tile → Option MapTileRec) (t u : Tile) :
    removeTileAt m t u = if u = t then none else m u := rfl

/- Charge bookkeeping of the tick phases and of the other state mutators,
used for the reachable-state charge invariant. -/

@[simp] lemma commitMove_charge (d : Dir) (mt : Option MapTileRec) (s : GState) :
    (commitMove d mt s).charge = s.charge := by
  unfold commitMove
  dsimp only
  split
  · rfl
  · split
    · rfl
    · split <;> rfl

@[simp] lemma commitMove_chargeReq (d : Dir) (mt : Option MapTileRec) (s : GState) :
    (commitMove d mt s).chargeReq = s.chargeReq := by
  unfold commitMove
  dsimp only
  split
  · rfl
  · split
    · rfl
    · split <;> rfl

@[simp] lemma outOfFuelStart_charge (s : GState) :
    (outOfFuelStart s).charge = s.charge := by
  unfold outOfFuelStart
  split <;> rfl

@[simp] lemma outOfFuelStart_chargeReq (s : GState) :
    (outOfFuelStart s).chargeReq = s.chargeReq := by
  unfold outOfFuelStart
  split <;> rfl

@[simp] lemma fuelDrain_charge (s : GState) (delta : ℚ) :
    (fuelDrain s delta).charge = s.charge := by
  unfold fuelDrain
  split
  · split <;> rfl
  · rfl

@[simp] lemma fuelDrain_chargeReq (s : GState) (delta : ℚ) :
    (fuelDrain s delta).chargeReq = s.chargeReq := by
  unfold fuelDrain
  split
  · split <;> rfl
  · rfl

@[simp] lemma advance_charge (s : GState) (delta : ℚ) :
    (advance s delta).charge = s.charge := by
  unfold advance
  split
  · cases s.facing <;> rfl
  · rfl

@[simp] lemma advance_chargeReq (s : GState) (delta : ℚ) :
    (advance s delta).chargeReq = s.chargeReq := by
  unfold advance
  split
  · cases s.facing <;> rfl
  · rfl

@[simp] lemma arrivalStep_fst_charge (s : GState) :
    (arrivalStep s).1.charge = s.charge := by
  unfold arrivalStep
  split
  · dsimp only
    split
    · split <;> rfl
    · rfl
  · rfl

@[simp] lemma arrivalStep_fst_chargeReq (s : GState) :
    (arrivalStep s).1.chargeReq = s.chargeReq := by
  unfold arrivalStep
  split
  · dsimp only
    split
    · split <;> rfl
    · rfl
  · rfl

@[simp] lemma finishTick_charge (s : GState) : (finishTick s).charge = s.charge := by
  unfold finishTick
  split <;> rfl

@[simp] lemma finishTick_chargeReq (s : GState) :
    (finishTick s).chargeReq = s.chargeReq := by
  unfold finishTick
  split <;> rfl

@[simp] lemma movingPhase_fst_charge (s : GState) (delta : ℚ) :
    (movingPhase s delta).1.charge = s.charge := by
  unfold movingPhase
  split
  · simp
  · simp

@[simp] lemma movingPhase_fst_chargeReq (s : GState) (delta : ℚ) :
    (movingPhase s delta).1.chargeReq = s.chargeReq := by
  unfold movingPhase
  split
  · simp
  · simp

lemma kpCharge_inv (s : GState) (mt : Option MapTileRec)
    (logic : GState → GState)
    (hc : (logic s).charge = s.charge) (hcr : (logic s).chargeReq = s.chargeReq)
    (h : s.charge ≤ s.chargeReq + 1) :
    (kpCharge s mt logic).charge ≤ (kpCharge s mt logic).chargeReq + 1 := by
  unfold kpCharge
  dsimp only
  by_cases h1 : mt.isNone = true ∨ s.chargeReq < s.charge
  · rw [if_pos h1]
    by_cases h2 : (logic s).charge ≤ (logic s).chargeReq
    · rw [if_pos h2]
      dsimp only
      omega
    · rw [if_neg h2]
      rw [hc, hcr]
      exact h
  · rw [if_neg h1]
    by_cases h2 : s.charge ≤ s.chargeReq
    · rw [if_pos h2]
      dsimp only
      omega
    · rw [if_neg h2]
      exact h

lemma chargePhase_inv (s : GState) (keys : List String)
    (h : s.charge ≤ s.chargeReq + 1) :
    (chargePhase s keys).charge ≤ (chargePhase s keys).chargeReq + 1 := by
  unfold chargePhase
  split
  · rcases checkDirection keys with _ | d
    · dsimp only
      by_cases h0 : 0 < s.charge
      · rw [if_pos h0]
        by_cases hstop : ({ s with charge := 0 } : GState).isStopping = true
        · rw [if_pos hstop]
          dsimp only
          omega
        · rw [if_neg hstop]
          dsimp only
          omega
      · rw [if_neg h0]
        by_cases hstop : s.isStopping = true
        · rw [if_pos hstop]
          dsimp only
          omega
        · rw [if_neg hstop]
          exact h
    · dsimp only
      exact kpCharge_inv _ _ _ (commitMove_charge _ _ _) (commitMove_chargeReq _ _ _) h
  · exact h

lemma tick_inv (s : GState) (delta : ℚ) (keys : List String)
    (h : s.charge ≤ s.chargeReq + 1) :
    (tick s delta keys).1.charge ≤ (tick s delta keys).1.chargeReq + 1 := by
  unfold tick
  split
  · exact h
  · split
    · simpa using h
    · dsimp only
      split
      · simpa using chargePhase_inv s keys h
      · simpa using chargePhase_inv s keys h

@[simp] lemma outOfFuelRecover_charge (s : GState) :
    (outOfFuelRecover s).charge = s.charge := rfl

@[simp] lemma outOfFuelRecover_chargeReq (s : GState) :
    (outOfFuelRecover s).chargeReq = s.chargeReq := rfl

@[simp] lemma purchaseFuelUpgrade_charge (p : ℚ) (s : GState) :
    (purchaseFuelUpgrade p s).charge = s.charge := by
  unfold purchaseFuelUpgrade
  split <;> rfl

@[simp] lemma purchaseFuelUpgrade_chargeReq (p : ℚ) (s : GState) :
    (purchaseFuelUpgrade p s).chargeReq = s.chargeReq := by
  unfold purchaseFuelUpgrade
  split <;> rfl

@[simp] lemma purchaseCargoUpgrade_charge (p : ℚ) (s : GState) :
    (purchaseCargoUpgrade p s).charge = s.charge := by
  unfold purchaseCargoUpgrade
  split <;> rfl

@[simp] lemma purchaseCargoUpgrade_chargeReq (p : ℚ) (s : GState) :
    (purchaseCargoUpgrade p s).chargeReq = s.chargeReq := by
  unfold purchaseCargoUpgrade
  split <;> rfl

@[simp] lemma purchaseSpeedUpgrade_charge (p : ℚ) (s : GState) :
    (purchaseSpeedUpgrade p s).charge = s.charge := by
  unfold purchaseSpeedUpgrade
  split <;> rfl

@[simp] lemma purchaseSpeedUpgrade_chargeReq (p : ℚ) (s : GState) :
    (purchaseSpeedUpgrade p s).chargeReq = s.chargeReq := by
  unfold purchaseSpeedUpgrade
  split <;> rfl

@[simp] lemma sellAllAction_charge (s : GState) :
    (sellAllAction s).charge = s.charge := by
  unfold sellAllAction
  split <;> rfl

@[simp] lemma sellAllAction_chargeReq (s : GState) :
    (sellAllAction s).chargeReq = s.chargeReq := by
  unfold sellAllAction
  split <;> rfl

@[simp] lemma refuelAction_charge (s : GState) :
    (refuelAction s).charge = s.charge := by
  unfold refuelAction
  dsimp only
  split <;> rfl

@[simp] lemma refuelAction_chargeReq (s : GState) :
    (refuelAction s).chargeReq = s.chargeReq := by
  unfold refuelAction
  dsimp only
  split <;> rfl

@[simp] lemma addWaypointAction_charge (n : String) (s : GState) :
    (addWaypointAction n s).charge = s.charge := by
  unfold addWaypointAction
  split <;> rfl

@[simp] lemma addWaypointAction_chargeReq (n : String) (s : GState) :
    (addWaypointAction n s).chargeReq = s.chargeReq := by
  unfold addWaypointAction
  split <;> rfl

@[simp] lemma teleportAction_charge (w : Waypoint) (s : GState) :
    (teleportAction w s).charge = s.charge := by
  unfold teleportAction
  split <;> rfl

@[simp] lemma teleportAction_chargeReq (w : Waypoint) (s : GState) :
    (teleportAction w s).chargeReq = s.chargeReq := by
  unfold teleportAction
  split <;> rfl

@[simp] lemma applySaveData_charge (sd : SaveData) (s : GState) :
    (applySaveData sd s).charge = s.charge := by
  unfold applySaveData
  dsimp only
  split <;> rfl

@[simp] lemma applySaveData_chargeReq (sd : SaveData) (s : GState) :
    (applySaveData sd s).chargeReq = s.chargeReq := by
  unfold applySaveData
  dsimp only
  split <;> rfl

lemma step_inv {s s' : GState} (hstep : Step s s')
    (h : s.charge ≤ s.chargeReq + 1) : s'.charge ≤ s'.chargeReq + 1 := by
  cases hstep with
  | tick s delta keys => exact tick_inv s delta keys h
  | recover s => simpa using h
  | fuelUpgrade p s => simpa using h
  | cargoUpgrade p s => simpa using h
  | speedUpgrade p s => simpa using h
  | sellAll s => simpa using h
  | refuel s => simpa using h
  | addWaypoint n s => simpa using h
  | teleport w s => simpa using h
  | applySave sd s => simpa using h

lemma jsOr_of_ne (v d : ℚ) (h : v ≠ 0) : jsOr v d = v := by
  unfold jsOr
  rw [if_neg h]

lemma jsOr_zero_default (v : ℚ) : jsOr v 0 = v := by
  unfold jsOr
  split
  · rename_i h
    exact h.symm
  · rfl

/- Coal generation helper lemmas. -/

lemma coalFold_apply (oracle : Tile → ℚ) (l : List Tile)
    (m : Tile → Option MapTileRec) (t : Tile) :
    (l.foldl
      (fun m u => if shouldGenCoal (oracle u) = true then genTypeCoal m u else m)
      m) t
      = if t ∈ l ∧ shouldGenCoal (oracle t) = true then some coalRec else m t := by
  induction l generalizing m with
  | nil => simp
  | cons u l ih =>
      rw [List.foldl_cons, ih]
      by_cases hp : shouldGenCoal (oracle t) = true
      · by_cases htl : t ∈ l
        · rw [if_pos ⟨htl, hp⟩,
            if_pos (show t ∈ u :: l ∧ shouldGenCoal (oracle t) = true from
              ⟨by simp [htl], hp⟩)]
        · rw [if_neg (show ¬(t ∈ l ∧ shouldGenCoal (oracle t) = true) from by
            tauto)]
          by_cases htu : t = u
          · subst htu
            rw [if_pos hp]
            unfold genTypeCoal
            rw [if_pos rfl,
              if_pos (show t ∈ t :: l ∧ shouldGenCoal (oracle t) = true from
                ⟨by simp, hp⟩)]
          · rw [if_neg (show ¬(t ∈ u :: l ∧ shouldGenCoal (oracle t) = true)
                from by simp [htu, htl])]
            by_cases hpu : shouldGenCoal (oracle u) = true
            · rw [if_pos hpu]
              unfold genTypeCoal
              rw [if_neg htu]
            · rw [if_neg hpu]
      · rw [if_neg (show ¬(t ∈ l ∧ shouldGenCoal (oracle t) = true) from by
            tauto),
          if_neg (show ¬(t ∈ u :: l ∧ shouldGenCoal (oracle t) = true) from by
            tauto)]
        by_cases hpu : shouldGenCoal (oracle u) = true
        · rw [if_pos hpu]
          unfold genTypeCoal
          rw [if_neg (show ¬ t = u from by rintro rfl; exact hp hpu)]
        · rw [if_neg hpu]

lemma mem_coalBand (t : Tile) :
    t ∈ coalBand ↔ 0 ≤ t.gx ∧ t.gx < 40 ∧ 9 ≤ t.gy ∧ t.gy < 29 := by
  unfold coalBand widthGU horizonLineGU
  rw [List.mem_flatMap]
  constructor
  · rintro ⟨a, ha, hm⟩
    rw [List.mem_range] at ha
    rw [List.mem_map] at hm
    obtain ⟨b, hb, rfl⟩ := hm
    rw [List.mem_range'_1] at hb
    dsimp only
    omega
  · rintro ⟨h0, h40, h9, h29⟩
    refine ⟨t.gx.toNat, ?_, ?_⟩
    · rw [List.mem_range]
      omega
    · rw [List.mem_map]
      refine ⟨t.gy.toNat, ?_, ?_⟩
      · rw [List.mem_range'_1]
        omega
      · obtain ⟨gx, gy⟩ := t
        dsimp only at h0 h40 h9 h29 ⊢
        simp only [Tile.mk.injEq]
        constructor <;> omega

/- C5 helper evaluations. -/

lemma c5_charging : ∀ n, n ≤ 21 →
    iterTick 20 ["ArrowRight"] n c5Start = { c5Start with charge := n } := by
  intro n
  induction n with
  | zero => intro _; rfl
  | succ k ih =>
      intro hk
      rw [iterTick, ih (by omega),
          charging_tick { c5Start with charge := k } 20 ["ArrowRight"] Dir.right
            shopRec rfl (by norm_num [c5Start, c4Start]) rfl rfl rfl rfl rfl
            (by show k ≤ 20; omega)]
      rfl

lemma c5_commit :
    (tick { c5Start with charge := 21 } 20 ["ArrowRight"]).1 =
      { c5Start with
        charge := 21
        targetX := 550
        moving := true
        wasMoving := true
        speed := 0
        minetile := some shopRec
        fuel := 10 - 20 / 5100 } := by
  have hk : checkDirection ["ArrowRight"] = some Dir.right := by rfl
  norm_num [tick, chargePhase, hk, kpCharge, commitMove, clampTarget,
    movingPhase, fuelDrain, advance, arrivedCond, arrivalStep, pixelToGrid,
    finishTick, c5Start, c4Start, c5Map, shopRec, neighborTile, tileSize,
    horizonLine, horizonLineGU, widthGU, heightGU, bordersRight, bordersBottom,
    bordersLeft, defaultSpeed, Tile.mk.injEq, decide_eq_true_eq]

lemma c5_stuck :
    (tick { c5Start with
        charge := 21
        targetX := 550
        moving := true
        wasMoving := true
        speed := 0
        minetile := some shopRec
        fuel := 10 - 20 / 5100 } 20 ["ArrowRight"]).1 =
      { c5Start with
        charge := 21
        targetX := 550
        moving := true
        wasMoving := true
        speed := 0
        minetile := some shopRec
        fuel := 10 - 20 / 5100 - 20 / 5100 } := by
  norm_num [tick, chargePhase, checkDirection, kpCharge, commitMove,
    clampTarget, movingPhase, fuelDrain, advance, arrivedCond, arrivalStep,
    pixelToGrid, finishTick, c5Start, c4Start, c5Map, shopRec, neighborTile,
    tileSize, horizonLine, horizonLineGU, widthGU, heightGU, bordersRight,
    bordersBottom, bordersLeft, defaultSpeed, Tile.mk.injEq, decide_eq_true_eq]

/- The claim theorems. -/

/-- C1: at the end of a committed move (a tick entered while moving, ending
with the movement-completion test true), the arrived-at cell determines the
outcome: a non-interactable MapTile is removed from fg_tiles exactly once
(its own key deleted, every other key untouched), exactly one matching
snapshot is appended to the cargo hold, and tiledestroy then tilemove are
dispatched; an interactable (building) tile leaves the store and hold
untouched and dispatches only tilemove; an empty cell leaves the store and
hold untouched and dispatches only tilemove. -/
theorem c1_arrivalCases (s : GState) (delta : ℚ) (keys : List String)
    (hT : s.tickEnabled = true) (hM : s.moving = true) (hF : 0 < s.fuel)
    (hA : arrivedCond (advance (fuelDrain s delta) delta) = true) :
    (∀ m, s.fgTiles (pixelToGrid s.targetX s.targetY) = some m →
        m.interactable = false →
        (tick s delta keys).1.fgTiles (pixelToGrid s.targetX s.targetY) = none
        ∧ (∀ u, u ≠ pixelToGrid s.targetX s.targetY →
            (tick s delta keys).1.fgTiles u = s.fgTiles u)
        ∧ (tick s delta keys).1.hold = s.hold ++ [snapshotOf m]
        ∧ (tick s delta keys).2 =
            [Ev.tiledestroy (pixelToGrid s.targetX s.targetY),
             Ev.tilemove (pixelToGrid s.targetX s.targetY)])
    ∧ (∀ m, s.fgTiles (pixelToGrid s.targetX s.targetY) = some m →
        m.interactable = true →
        (tick s delta keys).1.fgTiles = s.fgTiles
        ∧ (tick s delta keys).1.hold = s.hold
        ∧ (tick s delta keys).2 = [Ev.tilemove (pixelToGrid s.targetX s.targetY)])
    ∧ (s.fgTiles (pixelToGrid s.targetX s.targetY) = none →
        (tick s delta keys).1.fgTiles = s.fgTiles
        ∧ (tick s delta keys).1.hold = s.hold
        ∧ (tick s delta keys).2 = [Ev.tilemove (pixelToGrid s.targetX s.targetY)]) := by
  rw [tick_of_moving s delta keys hT hM (by linarith)]
  unfold movingPhase
  rw [if_neg (by linarith)]
  dsimp only
  unfold arrivalStep
  rw [if_pos hA]
  dsimp only
  simp only [advance_fgTiles, fuelDrain_fgTiles, advance_targetX, advance_targetY,
    fuelDrain_targetX, fuelDrain_targetY, advance_hold, fuelDrain_hold]
  refine ⟨?_, ?_, ?_⟩
  · intro m hm hi
    rw [hm]
    dsimp only
    rw [if_neg (by simp [hi])]
    simp only [finishTick_fgTiles, finishTick_hold, removeTileAt_apply]
    refine ⟨by simp, ?_, by simp, by simp⟩
    intro u hu
    simp [hu]
  · intro m hm hi
    rw [hm]
    dsimp only
    rw [if_pos hi]
    simp
  · intro hm
    rw [hm]
    simp

/-- Witness for C1 at a concrete state: arrival over an empty cell leaves the
store and cargo unchanged and dispatches a single tilemove event. -/
theorem c1_arrivalCases_witness :
    (tick c1Arrive 10 []).1.fgTiles = c1Arrive.fgTiles
    ∧ (tick c1Arrive 10 []).1.hold = c1Arrive.hold
    ∧ (tick c1Arrive 10 []).2 =
        [Ev.tilemove (pixelToGrid c1Arrive.targetX c1Arrive.targetY)] :=
  (c1_arrivalCases c1Arrive 10 [] rfl rfl (by norm_num [c1Arrive, c4Start])
      (by norm_num [arrivedCond, advance, fuelDrain, c1Arrive, c4Start,
        horizonLine, horizonLineGU, tileSize])).2.2
    (by norm_num [c1Arrive, c4Start, c4Map, pixelToGrid, tileSize, Tile.mk.injEq])

/-- C2: on a tick entered while moving with fuel remaining, if the player is
below the horizon tolerance band (y > horizonLine - tileSize + 5) fuel drops
by exactly (1/5100) * delta when a tile is being mined (minetile set) and by
exactly (1/7000) * delta otherwise, hence strictly decreases for positive
delta; at or above the band, fuel is unchanged. -/
theorem c2_fuelDrain (s : GState) (delta : ℚ) (keys : List String)
    (hT : s.tickEnabled = true) (hM : s.moving = true) (hF : 0 < s.fuel)
    (hd : 0 < delta) :
    (horizonLine - tileSize + 5 < s.y →
        (s.minetile.isSome = true →
            (tick s delta keys).1.fuel = s.fuel - 1 / 5100 * delta)
          ∧ (s.minetile = none →
            (tick s delta keys).1.fuel = s.fuel - 1 / 7000 * delta)
          ∧ (tick s delta keys).1.fuel < s.fuel)
      ∧ (s.y ≤ horizonLine - tileSize + 5 →
        (tick s delta keys).1.fuel = s.fuel) := by
  rw [tick_of_moving s delta keys hT hM (by linarith)]
  unfold movingPhase
  rw [if_neg (by linarith)]
  simp only [finishTick_fuel, arrivalStep_fst_fuel, advance_fuel]
  unfold fuelDrain
  constructor
  · intro hy
    rw [if_pos hy]
    refine ⟨?_, ?_, ?_⟩
    · intro hmt
      rcases Option.isSome_iff_exists.mp hmt with ⟨mt, hmt'⟩
      rw [hmt']
      ring
    · intro hmt
      rw [hmt]
      ring
    · rcases h : s.minetile with _ | mt <;> simp only [] <;> nlinarith
  · intro hy
    rw [if_neg (by linarith)]

/-- Witness for C2 at a concrete state: a moving, mining player below the
horizon loses exactly 10/5100 fuel over a 10 ms tick. -/
theorem c2_fuelDrain_witness :
    (tick c2Moving 10 []).1.fuel = c2Moving.fuel - 1 / 5100 * 10 :=
  ((c2_fuelDrain c2Moving 10 [] rfl rfl (by norm_num [c2Moving, c4Start])
      (by norm_num)).1
    (by norm_num [c2Moving, c4Start, horizonLine, horizonLineGU, tileSize])).1 rfl

/-- C3, counterexample to the claim as stated: on a tick with no direction
key pressed and the player not moving, the charge is NOT reset when canMove
is false (the reset branch sits behind the canMove guard); a mid-recovery
state with leftover charge keeps it. -/
theorem c3_counterexample :
    c3Stuck.moving = false ∧ c3Stuck.canMove = false
    ∧ checkDirection [] = none
    ∧ (tick c3Stuck 16 []).1.charge ≠ 0 := by
  refine ⟨rfl, rfl, rfl, ?_⟩
  norm_num [tick, chargePhase, finishTick, c3Stuck, c4Start]

/-- C3, amended: in every reachable state the charge counter is at most
chargeReq + 1; and on any tick where ticking is enabled, fuel is positive,
the player CAN move, no direction key is pressed and the player is not
moving, the charge is reset to 0. -/
theorem c3_chargeInvariant :
    (∀ (fg : Tile → Option MapTileRec) (s : GState), Reachable fg s →
        s.charge ≤ s.chargeReq + 1)
    ∧ ∀ (s : GState) (delta : ℚ) (keys : List String),
        s.tickEnabled = true → 0 < s.fuel → s.canMove = true →
        s.moving = false → checkDirection keys = none →
        (tick s delta keys).1.charge = 0 := by
  constructor
  · intro fg s h
    induction h with
    | refl => norm_num [initState, resetPos]
    | tail _ hstep ih => exact step_inv hstep ih
  · intro s delta keys hT hF hC hM hk
    unfold tick
    rw [if_neg (by simp [hT]), if_neg (by push_neg; exact hF)]
    have hcp : (chargePhase s keys).charge = 0
        ∧ (chargePhase s keys).moving = false := by
      unfold chargePhase
      rw [if_pos ⟨hM, hC⟩, hk]
      dsimp only
      by_cases h0 : 0 < s.charge
      · rw [if_pos h0]
        by_cases hstop : ({ s with charge := 0 } : GState).isStopping = true
        · rw [if_pos hstop]
          exact ⟨rfl, hM⟩
        · rw [if_neg hstop]
          exact ⟨rfl, hM⟩
      · rw [if_neg h0]
        by_cases hstop : s.isStopping = true
        · rw [if_pos hstop]
          exact ⟨by dsimp only; omega, hM⟩
        · rw [if_neg hstop]
          exact ⟨by omega, hM⟩
    dsimp only
    rw [if_neg (by simp [hcp.2])]
    dsimp only
    rw [finishTick_charge]
    exact hcp.1

/-- Witness for C3: the initial state satisfies the invariant, and an idle
tick with no keys resets the charge of a concrete idle state to 0. -/
theorem c3_chargeInvariant_witness :
    (initState (fun _ => none)).charge ≤ (initState (fun _ => none)).chargeReq + 1
    ∧ (tick c4Start 16 []).1.charge = 0 :=
  ⟨c3_chargeInvariant.1 (fun _ => none) _ Relation.ReflTransGen.refl,
   c3_chargeInvariant.2 c4Start 16 [] rfl (by norm_num [c4Start]) rfl rfl rfl⟩

/-- C4, counterexample to the claim as stated: after 21 ticks of held RIGHT
input over an occupied destination cell the move has NOT committed; the
player is still not moving, the target is unchanged, and the charge counter
has only just reached 21. -/
theorem c4_counterexample :
    (iterTick 20 ["ArrowRight"] 21 c4Start).moving = false
    ∧ (iterTick 20 ["ArrowRight"] 21 c4Start).targetX = c4Start.targetX
    ∧ (iterTick 20 ["ArrowRight"] 21 c4Start).charge = 21 := by
  rw [c4_charging 21 (le_refl 21)]
  exact ⟨rfl, rfl, rfl⟩

/-- C4, amended: the move commits on the 22nd tick of held input (kpCharge
requires charge > chargeReq, and charge first exceeds 20 after 21
increments): the player starts moving, the target becomes grid (11, 8)
(pixels (550, 400)) and the speed becomes
(50/100) * defaultSpeed * speedMultiplier. -/
theorem c4_commitOn22 :
    (iterTick 20 ["ArrowRight"] 22 c4Start).moving = true
    ∧ (iterTick 20 ["ArrowRight"] 22 c4Start).targetX = 11 * tileSize
    ∧ (iterTick 20 ["ArrowRight"] 22 c4Start).targetY = 8 * tileSize
    ∧ (iterTick 20 ["ArrowRight"] 22 c4Start).speed
        = 1 / 2 * (defaultSpeed * c4Start.speedMultiplier) := by
  have h22 : (22 : ℕ) = 21 + 1 := rfl
  rw [h22, iterTick, c4_charging 21 (le_refl 21), c4_commit]
  refine ⟨rfl, by norm_num [c4Start, tileSize], by norm_num [c4Start, tileSize],
    by norm_num [c4Start, defaultSpeed]⟩

/-- C5: evaluating the code at the failing input. The destination holds the
interactable Shop; when the move toward it commits (22nd held tick), the
speed computation is NOT skipped for buildings: speed is set to
(0/100) * defaultSpeed * speedMultiplier = 0, the player is left moving with
zero speed, and on the following tick its position does not change, so it can
never arrive at (and interact with) the building. -/
theorem c5_buildingSpeedZero :
    c5Start.fgTiles { gx := 11, gy := 8 } = some shopRec
    ∧ shopRec.interactable = true
    ∧ (iterTick 20 ["ArrowRight"] 22 c5Start).moving = true
    ∧ (iterTick 20 ["ArrowRight"] 22 c5Start).speed = 0
    ∧ (iterTick 20 ["ArrowRight"] 23 c5Start).x = c5Start.x
    ∧ (iterTick 20 ["ArrowRight"] 23 c5Start).moving = true := by
  have h22 : (22 : ℕ) = 21 + 1 := rfl
  have h23 : (23 : ℕ) = 22 + 1 := rfl
  have e22 : iterTick 20 ["ArrowRight"] 22 c5Start =
      { c5Start with
        charge := 21
        targetX := 550
        moving := true
        wasMoving := true
        speed := 0
        minetile := some shopRec
        fuel := 10 - 20 / 5100 } := by
    rw [h22, iterTick, c5_charging 21 (le_refl 21), c5_commit]
  have e23 : iterTick 20 ["ArrowRight"] 23 c5Start =
      { c5Start with
        charge := 21
        targetX := 550
        moving := true
        wasMoving := true
        speed := 0
        minetile := some shopRec
        fuel := 10 - 20 / 5100 - 20 / 5100 } := by
    rw [h23, iterTick, e22, c5_stuck]
  rw [e22, e23]
  exact ⟨rfl, rfl, rfl, rfl, rfl, rfl⟩

/-- C6: the out-of-fuel sequence. Triggering it with fuel at most 0 and the
debounce clear immediately sets canMove and moving to false and raises the
debounce flag; a second trigger while the flag is up is a complete no-op (in
particular fuel and money are unchanged); the deferred recovery sets fuel to
maxFuel and re-enables movement. -/
theorem c6_outOfFuelSeq (s : GState) (h0 : s.fuel ≤ 0)
    (hd : s.fuelDebounce = false) :
    ((outOfFuelStart s).canMove = false ∧ (outOfFuelStart s).moving = false
      ∧ (outOfFuelStart s).fuelDebounce = true)
    ∧ (∀ s' : GState, s'.fuelDebounce = true → outOfFuelStart s' = s')
    ∧ ∀ s' : GState, (outOfFuelRecover s').fuel = s'.maxFuel
        ∧ (outOfFuelRecover s').canMove = true := by
  refine ⟨?_, ?_, ?_⟩
  · unfold outOfFuelStart
    rw [if_neg (by simp [hd])]
    exact ⟨rfl, rfl, rfl⟩
  · intro s' h
    unfold outOfFuelStart
    rw [if_pos h]
  · intro s'
    exact ⟨rfl, rfl⟩

/-- Witness for C6 at a concrete empty-tank state. -/
theorem c6_outOfFuelSeq_witness :
    (outOfFuelStart c6Empty).canMove = false
    ∧ (outOfFuelStart c6Empty).moving = false
    ∧ (outOfFuelStart c6Empty).fuelDebounce = true :=
  (c6_outOfFuelSeq c6Empty (by norm_num [c6Empty, c4Start]) rfl).1

/-- C7, counterexample to the claim as stated: with money 0 and one cargo item
of value 5, the SELL ALL item's price (the total cargo value) exceeds the
player's money, so handlePurchase rejects the action: money is not increased
and the cargo hold is not emptied. -/
theorem c7_counterexample :
    c7Broke.money = 0 ∧ cargoValue c7Broke = 5
    ∧ sellAllAction c7Broke = c7Broke := by
  refine ⟨rfl, by norm_num [cargoValue, c7Broke, c4Start], ?_⟩
  unfold sellAllAction
  rw [if_pos (by norm_num [cargoValue, c7Broke, c4Start])]

/-- C7, amended: provided the player's money is at least the total cargo
value (the generic affordability guard at the top of handlePurchase also
gates the sell action), selling all increases money by exactly the sum of
the cargo item values and empties the cargo list. -/
theorem c7_sellAllGuarded (s : GState) (h : cargoValue s ≤ s.money) :
    (sellAllAction s).money = s.money + cargoValue s
    ∧ (sellAllAction s).hold = [] := by
  unfold sellAllAction
  rw [if_neg (by push_neg; exact h)]
  exact ⟨rfl, rfl⟩

/-- Witness for C7 at a concrete solvent state carrying coal worth 5. -/
theorem c7_sellAllGuarded_witness :
    (sellAllAction c7Rich).money = c7Rich.money + cargoValue c7Rich
    ∧ (sellAllAction c7Rich).hold = [] :=
  c7_sellAllGuarded c7Rich (by norm_num [cargoValue, c7Rich, c4Start])

/-- C8, counterexample to the claim as stated: a player with money exactly 0
at save time gets 300 back on load (applySaveData uses the JS falsy fallback
`saveData.player.money || 300`), so the round trip does not restore money. -/
theorem c8_counterexample :
    c8Broke.money = 0 ∧ (roundTrip c8Broke).money = 300 := by
  refine ⟨rfl, ?_⟩
  norm_num [roundTrip, applySaveData, saveGame, jsOr, c8Broke, c4Start]

/-- C8, amended: provided money, fuel, maxFuel and speedMultiplier are all
nonzero at save time (each has a JS || fallback in applySaveData that
replaces a saved 0 by 300, the current maxFuel, 10 and 1 respectively),
saving and then applying the loaded data restores money, fuel, maxFuel,
tank, speedMultiplier, position, cargo contents and waypoints exactly. -/
theorem c8_roundTripNonzero (s : GState) (hm : s.money ≠ 0) (hf : s.fuel ≠ 0)
    (hmx : s.maxFuel ≠ 0) (hsm : s.speedMultiplier ≠ 0) :
    (roundTrip s).money = s.money ∧ (roundTrip s).fuel = s.fuel
    ∧ (roundTrip s).maxFuel = s.maxFuel ∧ (roundTrip s).tank = s.tank
    ∧ (roundTrip s).speedMultiplier = s.speedMultiplier
    ∧ (roundTrip s).x = s.x ∧ (roundTrip s).y = s.y
    ∧ (roundTrip s).hold = s.hold ∧ (roundTrip s).waypoints = s.waypoints := by
  unfold roundTrip applySaveData saveGame
  dsimp only
  rw [jsOr_of_ne _ _ hm, jsOr_of_ne _ _ hf, jsOr_of_ne _ _ hmx,
    jsOr_zero_default, jsOr_of_ne _ _ hsm]
  split <;> exact ⟨rfl, rfl, rfl, rfl, rfl, rfl, rfl, rfl, rfl⟩

/-- Witness for C8 at the concrete scenario state (all guarded fields
nonzero). -/
theorem c8_roundTripNonzero_witness :
    (roundTrip c4Start).money = c4Start.money
    ∧ (roundTrip c4Start).fuel = c4Start.fuel
    ∧ (roundTrip c4Start).maxFuel = c4Start.maxFuel
    ∧ (roundTrip c4Start).tank = c4Start.tank
    ∧ (roundTrip c4Start).speedMultiplier = c4Start.speedMultiplier
    ∧ (roundTrip c4Start).x = c4Start.x ∧ (roundTrip c4Start).y = c4Start.y
    ∧ (roundTrip c4Start).hold = c4Start.hold
    ∧ (roundTrip c4Start).waypoints = c4Start.waypoints :=
  c8_roundTripNonzero c4Start (by norm_num [c4Start]) (by norm_num [c4Start])
    (by norm_num [c4Start]) (by norm_num [c4Start])

/-- C9, counterexample to the claim as stated: row horizonLineGU + 21 (= 29)
is NOT part of the ore band (the loop runs while gY < horizonLineGU + 21, so
its last row is horizonLineGU + 20): even with a Bernoulli draw of 0, which
passes the 7.5% test, the cell (0, 29) keeps its dirt. -/
theorem c9_counterexample :
    generateCoalLayer (fun _ => 0) allDirt { gx := 0, gy := 29 } = some dirtRec
    ∧ shouldGenCoal 0 = true
    ∧ (29 : ℤ) = (horizonLineGU : ℤ) + 21
    ∧ dirtRec ≠ coalRec := by
  refine ⟨?_, by norm_num [shouldGenCoal], by norm_num [horizonLineGU],
    by simp [dirtRec, coalRec]⟩
  rw [generateCoalLayer, coalFold_apply]
  rw [if_neg (show ¬(({ gx := 0, gy := 29 } : Tile) ∈ coalBand
      ∧ shouldGenCoal ((fun _ => (0:ℚ)) ({ gx := 0, gy := 29 } : Tile)) = true)
      from by
    rw [mem_coalBand]
    dsimp only
    norm_num)]
  rfl

/-- C9, amended: the coal layer replaces exactly the cells in the 20-row band
gY from horizonLineGU + 1 up to (but excluding) horizonLineGU + 21 whose
Math.random() * 100 draw is at most 7.5 by a Coal tile (overwriting whatever
was there), and leaves every other cell unchanged. -/
theorem c9_coalBandChar (oracle : Tile → ℚ) (m : Tile → Option MapTileRec)
    (t : Tile) :
    generateCoalLayer oracle m t =
      if 0 ≤ t.gx ∧ t.gx < (widthGU : ℤ)
          ∧ (horizonLineGU : ℤ) + 1 ≤ t.gy ∧ t.gy < (horizonLineGU : ℤ) + 21
          ∧ shouldGenCoal (oracle t) = true
        then some coalRec else m t := by
  rw [generateCoalLayer, coalFold_apply]
  refine if_congr ?_ rfl rfl
  rw [mem_coalBand]
  unfold widthGU horizonLineGU
  norm_num
  tauto

/-- C10: arriving at the fuel station with a full tank sets the currentUI
flag to "fuel" but creates no UI overlay; and while the flag is set, every
shop, selling-post, fuel-station and teleporter interaction is a complete
no-op (only the save station, which ignores the flag, still acts). -/
theorem c10_uiLock (b : BH) (hui : b.currentUI = none)
    (hfull : b.player.maxFuel - b.player.fuel ≤ 0) :
    ((openFuelStation b).currentUI = some "fuel"
      ∧ (openFuelStation b).overlay = b.overlay)
    ∧ ∀ b' : BH, b'.currentUI.isSome = true →
        ∀ bt : BType, bt ≠ BType.saveStation →
          handleBuildingInteraction bt b' = b' := by
  constructor
  · unfold openFuelStation
    rw [if_neg (by simp [hui])]
    dsimp only
    rw [if_pos hfull]
    exact ⟨rfl, rfl⟩
  · intro b' h bt hbt
    cases bt with
    | shop =>
        unfold handleBuildingInteraction openShop
        rw [if_pos h]
    | saveStation => exact absurd rfl hbt
    | sellingPost =>
        unfold handleBuildingInteraction openSellingPost
        rw [if_pos h]
    | fuelStation =>
        unfold handleBuildingInteraction openFuelStation
        rw [if_pos h]
    | teleporter =>
        unfold handleBuildingInteraction openTeleporter
        rw [if_pos h]

/-- Witness for C10 at a concrete handler whose player has a full tank. -/
theorem c10_uiLock_witness :
    (openFuelStation bh10).currentUI = some "fuel"
    ∧ (openFuelStation bh10).overlay = bh10.overlay :=
  (c10_uiLock bh10 rfl (by norm_num [bh10, c4Start])).1

end MegaMiner
